import Mathlib

/-!
# Audit log factory (`factory.go`)

A shallow embedding of the four constructors of `factory.go`:
`New`, `NewLogger`, `NewEncoder` and `NewStorage`.

Go functions returning `(T, error)` are embedded as functions returning a pair
`Option T × Option Error` (`none` is Go's `nil`), so that "nil value, non-nil
error" and "value, nil error" are both expressible, as is a backend
constructor that returns anything else.

The functions are stateful: the backend constructors they call live in other
packages and may touch the outside world (create directories, open network
sessions), and `NewLogger` allocates a `sync.WaitGroup`.  The embedding passes
an explicit `State` holding

* `world`  – the part of the outside world the backend constructors act on,
* `calls`  – the log of calls made so far (every call statement of
  `factory.go` appends the callee to it),
* `wgs`    – the heap of allocated wait groups (a pointer is an index).
-/

namespace Auditlog

/-! ## Data model -/

/-- Go `error` value: produced by `fmt.Errorf` or by a backend constructor. -/
structure Error where
  msg : String
  deriving DecidableEq, Repr

/-- Modelled from the spec: the type `Format` is declared outside `factory.go`.
It is a string kind (it is printed with the `%s` verb), so values outside the
enumeration `{none, asciinema, binary}` exist. -/
abbrev Format := String

/-- Modelled from the spec: the type `Storage` (the storage kind) is declared
outside `factory.go`.  It is a string kind (it is printed with the `%s` verb),
so values outside the enumeration `{none, file, object-storage}` exist. -/
abbrev Storage := String

/-- Modelled from the spec: the six enumeration constants used by the two
`switch` statements are declared outside `factory.go`; they are taken as
parameters. -/
structure Consts where
  FormatNone : Format
  FormatAsciinema : Format
  FormatBinary : Format
  StorageNone : Storage
  StorageFile : Storage
  StorageS3 : Storage

/-- Modelled from the spec: the structure `Config` is declared outside
`factory.go`; these are the six fields `factory.go` reads.  `IC`, `FC` and `SC`
are the types of the intercept, file and object-storage sub-configurations. -/
structure Config (IC FC SC : Type) where
  Enable : Bool
  Format : Format
  Storage : Storage
  Intercept : IC
  File : FC
  S3 : SC

/-- Zero value of `sync.WaitGroup`: nothing outstanding. -/
structure WaitGroup where
  counter : Nat
  deriving DecidableEq, Repr

/-- Every function `factory.go` calls. -/
inductive Call where
  | NewEncoder
  | NewStorage
  | NewLogger
  | noneCodecNewEncoder
  | asciinemaNewEncoder
  | binaryNewEncoder
  | noneStorageNewStorage
  | fileNewStorage
  | s3NewStorage
  deriving DecidableEq, Repr

/-- Explicit state threaded through the constructors. -/
structure State (σ : Type) where
  world : σ
  calls : List Call
  wgs : List WaitGroup

/-- The struct `loggerImplementation` built by `NewLogger`.  `encoder` and
`storage` are interface values, hence nilable; `wg` is a pointer into the heap
of wait groups. -/
structure loggerImplementation (IC L G Enc WS : Type) where
  intercept : IC
  encoder : Option Enc
  storage : Option WS
  logger : L
  wg : Nat
  geoIPLookup : G

/-- The interface `Logger` with its two implementations: `&empty{}` and
`&loggerImplementation{...}`. -/
inductive Logger (IC L G Enc WS : Type) where
  | empty
  | impl (l : loggerImplementation IC L G Enc WS)

/-- The constructors of the codec and storage packages used by `factory.go`.
Each one acts on the outside world.  The three encoder constructors
and `noneStorage.NewStorage` have no error result and return a value; the file
and object-storage constructors return a Go pair `(storage, error)`. -/
structure Externals (FC SC L G Enc WS σ : Type) where
  noneCodecNewEncoder : σ → Enc × σ
  asciinemaNewEncoder : L → G → σ → Enc × σ
  binaryNewEncoder : G → σ → Enc × σ
  noneStorageNewStorage : σ → WS × σ
  fileNewStorage : FC → L → σ → (Option WS × Option Error) × σ
  s3NewStorage : SC → L → σ → (Option WS × Option Error) × σ

/-! ## State plumbing -/

section Plumbing

variable {σ α : Type}

/-- Append a callee to the call log. -/
def State.record (c : Call) (s : State σ) : State σ :=
  { s with calls := s.calls ++ [c] }

/-- A call statement whose callee is a function of `factory.go`: log the
callee, then run its body. -/
def invoke (c : Call) (f : State σ → α × State σ) (s : State σ) : α × State σ :=
  f (s.record c)

/-- A call statement whose callee is a constructor of another package: log the
callee, then let it act on the world. -/
def foreignCall (c : Call) (f : σ → α × σ) (s : State σ) : α × State σ :=
  let r := f s.world
  (r.1, { s with world := r.2, calls := s.calls ++ [c] })

/-- The expression `&sync.WaitGroup{}`: allocate a zero wait group and return
the pointer to it. -/
def newWaitGroup (s : State σ) : Nat × State σ :=
  (s.wgs.length, { s with wgs := s.wgs ++ [{ counter := 0 }] })

/-- The calls logged between state `s` and a later state `t`. -/
def callsSince (s t : State σ) : List Call :=
  t.calls.drop s.calls.length

end Plumbing

/-! ## The constructors of `factory.go` -/

section Factory

variable {IC FC SC L G Enc WS σ : Type}

/-- `NewEncoder creates a new audit log encoder of the specified format.` -/
def NewEncoder (K : Consts) (X : Externals FC SC L G Enc WS σ)
    (encoder : Format) (logger : L) (geoIPLookupProvider : G) (s : State σ) :
    (Option Enc × Option Error) × State σ :=
  if encoder = K.FormatNone then
    let r := foreignCall Call.noneCodecNewEncoder X.noneCodecNewEncoder s
    ((some r.1, none), r.2)
  else if encoder = K.FormatAsciinema then
    let r := foreignCall Call.asciinemaNewEncoder
      (X.asciinemaNewEncoder logger geoIPLookupProvider) s
    ((some r.1, none), r.2)
  else if encoder = K.FormatBinary then
    let r := foreignCall Call.binaryNewEncoder (X.binaryNewEncoder geoIPLookupProvider) s
    ((some r.1, none), r.2)
  else
    ((none, some ⟨"invalid audit log encoder: " ++ encoder⟩), s)

/-- `NewStorage creates a new audit log storage of the specified type and with
the specified configuration.` -/
def NewStorage (K : Consts) (X : Externals FC SC L G Enc WS σ)
    (config : Config IC FC SC) (logger : L) (s : State σ) :
    (Option WS × Option Error) × State σ :=
  if config.Storage = K.StorageNone then
    let r := foreignCall Call.noneStorageNewStorage X.noneStorageNewStorage s
    ((some r.1, none), r.2)
  else if config.Storage = K.StorageFile then
    foreignCall Call.fileNewStorage (X.fileNewStorage config.File logger) s
  else if config.Storage = K.StorageS3 then
    foreignCall Call.s3NewStorage (X.s3NewStorage config.S3 logger) s
  else
    ((none, some ⟨"invalid audit log storage: " ++ config.Storage⟩), s)

/-- `NewLogger creates a new audit logging pipeline with the provided
elements.` -/
def NewLogger (intercept : IC) (encoder : Option Enc) (storage : Option WS)
    (logger : L) (geoIPLookup : G) (s : State σ) :
    (Option (Logger IC L G Enc WS) × Option Error) × State σ :=
  let a := newWaitGroup s
  ((some (Logger.impl
      { intercept := intercept
        encoder := encoder
        storage := storage
        logger := logger
        wg := a.1
        geoIPLookup := geoIPLookup }), none), a.2)

/-- `New Creates a new audit logging pipeline based on the provided
configuration.` -/
def New (K : Consts) (X : Externals FC SC L G Enc WS σ)
    (config : Config IC FC SC) (geoIPLookupProvider : G) (logger : L) (s : State σ) :
    (Option (Logger IC L G Enc WS) × Option Error) × State σ :=
  if !config.Enable then
    ((some Logger.empty, none), s)
  else
    let r₁ := invoke Call.NewEncoder
      (NewEncoder K X config.Format logger geoIPLookupProvider) s
    if r₁.1.2 ≠ none then
      ((none, r₁.1.2), r₁.2)
    else
      let r₂ := invoke Call.NewStorage (NewStorage K X config logger) r₁.2
      if r₂.1.2 ≠ none then
        ((none, r₂.1.2), r₂.2)
      else
        invoke Call.NewLogger
          (NewLogger config.Intercept r₁.1.1 r₂.1.1 logger geoIPLookupProvider) r₂.2

end Factory

/-! ## Enumerations -/

/-- The format is one of the three enumeration constants. -/
def Consts.supportsFormat (K : Consts) (f : Format) : Prop :=
  f = K.FormatNone ∨ f = K.FormatAsciinema ∨ f = K.FormatBinary

/-- The storage kind is one of the three enumeration constants. -/
def Consts.supportsStorage (K : Consts) (k : Storage) : Prop :=
  k = K.StorageNone ∨ k = K.StorageFile ∨ k = K.StorageS3

instance (K : Consts) (f : Format) : Decidable (K.supportsFormat f) := by
  unfold Consts.supportsFormat; infer_instance

instance (K : Consts) (k : Storage) : Decidable (K.supportsStorage k) := by
  unfold Consts.supportsStorage; infer_instance

/-! ## A concrete instance

Used to evaluate the constructors on concrete configurations. -/

/-- Enumeration constants with pairwise distinct values. -/
def sampleConsts : Consts :=
  { FormatNone := "none", FormatAsciinema := "asciinema", FormatBinary := "binary"
    StorageNone := "none", StorageFile := "file", StorageS3 := "s3" }

/-- Backend constructors over a world that lists the resources created so far.
Loggers and geo-IP providers are numbers, encoders and storages are lists of
numbers, the file sub-configuration is a directory number and the
object-storage sub-configuration a bucket number; `0` is rejected by both
fallible constructors. -/
def sampleExternals : Externals Nat Nat Nat Nat (List Nat) (List Nat) (List Nat) :=
  { noneCodecNewEncoder := fun w => ([0], w)
    asciinemaNewEncoder := fun l g w => ([1, l, g], w)
    binaryNewEncoder := fun g w => ([2, g], w)
    noneStorageNewStorage := fun w => ([0], w)
    fileNewStorage := fun d _ w =>
      if d = 0 then ((none, some ⟨"directory is not writable"⟩), w)
      else ((some [1, d], none), w ++ [d])
    s3NewStorage := fun b _ w =>
      if b = 0 then ((none, some ⟨"no bucket"⟩), w)
      else ((some [2, b], none), w ++ [b]) }

/-- Sample configuration. -/
def sampleConfig (enable : Bool) (format : Format) (storage : Storage) (file s3 : Nat) :
    Config (List Bool) Nat Nat :=
  { Enable := enable, Format := format, Storage := storage,
    Intercept := [true, false], File := file, S3 := s3 }

/-- Initial state: empty world, nothing called, nothing allocated. -/
def sampleState : State (List Nat) :=
  { world := [], calls := [], wgs := [] }

/-! ## Basic facts about the plumbing -/

section Lemmas

variable {IC FC SC L G Enc WS σ α : Type}

theorem callsSince_append (s t : State σ) (l : List Call) (h : t.calls = s.calls ++ l) :
    callsSince s t = l := by
  simp [callsSince, h]

theorem callsSince_self (s : State σ) : callsSince s s = [] := by
  simp [callsSince]

@[simp] theorem State.record_calls (c : Call) (s : State σ) :
    (s.record c).calls = s.calls ++ [c] := rfl

@[simp] theorem State.record_wgs (c : Call) (s : State σ) : (s.record c).wgs = s.wgs := rfl

@[simp] theorem State.record_world (c : Call) (s : State σ) :
    (s.record c).world = s.world := rfl

theorem foreignCall_calls (c : Call) (f : σ → α × σ) (s : State σ) :
    (foreignCall c f s).2.calls = s.calls ++ [c] := rfl

theorem foreignCall_wgs (c : Call) (f : σ → α × σ) (s : State σ) :
    (foreignCall c f s).2.wgs = s.wgs := rfl

/-- The encoder constructor leaves the heap of wait groups alone. -/
theorem NewEncoder_wgs (K : Consts) (X : Externals FC SC L G Enc WS σ)
    (f : Format) (logger : L) (geo : G) (s : State σ) :
    (NewEncoder K X f logger geo s).2.wgs = s.wgs := by
  unfold NewEncoder
  split_ifs <;> rfl

/-- What `NewEncoder` logs: at most one call, and it is an encoder constructor. -/
theorem NewEncoder_calls (K : Consts) (X : Externals FC SC L G Enc WS σ)
    (f : Format) (logger : L) (geo : G) (s : State σ) :
    ∃ l : List Call, (NewEncoder K X f logger geo s).2.calls = s.calls ++ l ∧
      ∀ c ∈ l, c = Call.noneCodecNewEncoder ∨ c = Call.asciinemaNewEncoder ∨
        c = Call.binaryNewEncoder := by
  unfold NewEncoder
  split_ifs
  · exact ⟨[Call.noneCodecNewEncoder], rfl, by simp⟩
  · exact ⟨[Call.asciinemaNewEncoder], rfl, by simp⟩
  · exact ⟨[Call.binaryNewEncoder], rfl, by simp⟩
  · exact ⟨[], by simp, by simp⟩

/-- On a supported format `NewEncoder` returns an encoder and a nil error. -/
theorem NewEncoder_ok (K : Consts) (X : Externals FC SC L G Enc WS σ)
    (f : Format) (logger : L) (geo : G) (s : State σ) (h : K.supportsFormat f) :
    ∃ e, (NewEncoder K X f logger geo s).1 = (some e, none) := by
  unfold NewEncoder
  rcases h with h | h | h
  · rw [if_pos h]; exact ⟨_, rfl⟩
  · split_ifs <;> exact ⟨_, rfl⟩
  · split_ifs <;> exact ⟨_, rfl⟩

/-- On an unsupported format `NewEncoder` returns the formatted error and
leaves the state alone. -/
theorem NewEncoder_bad (K : Consts) (X : Externals FC SC L G Enc WS σ)
    (f : Format) (logger : L) (geo : G) (s : State σ) (h : ¬ K.supportsFormat f) :
    NewEncoder K X f logger geo s =
      ((none, some ⟨"invalid audit log encoder: " ++ f⟩), s) := by
  simp only [Consts.supportsFormat, not_or] at h
  unfold NewEncoder
  rw [if_neg h.1, if_neg h.2.1, if_neg h.2.2]

/-- On an unsupported storage kind `NewStorage` returns the formatted error and
leaves the state alone. -/
theorem NewStorage_bad (K : Consts) (X : Externals FC SC L G Enc WS σ)
    (config : Config IC FC SC) (logger : L) (s : State σ)
    (h : ¬ K.supportsStorage config.Storage) :
    NewStorage K X config logger s =
      ((none, some ⟨"invalid audit log storage: " ++ config.Storage⟩), s) := by
  simp only [Consts.supportsStorage, not_or] at h
  unfold NewStorage
  rw [if_neg h.1, if_neg h.2.1, if_neg h.2.2]

/-- The body of `New` once the configuration is enabled. -/
theorem New_enabled (K : Consts) (X : Externals FC SC L G Enc WS σ)
    (config : Config IC FC SC) (geo : G) (logger : L) (s : State σ)
    (h : config.Enable = true) :
    New K X config geo logger s =
      (let r₁ := NewEncoder K X config.Format logger geo (s.record Call.NewEncoder)
       if r₁.1.2 ≠ none then ((none, r₁.1.2), r₁.2)
       else
         let r₂ := NewStorage K X config logger (r₁.2.record Call.NewStorage)
         if r₂.1.2 ≠ none then ((none, r₂.1.2), r₂.2)
         else NewLogger config.Intercept r₁.1.1 r₂.1.1 logger geo
           (r₂.2.record Call.NewLogger)) := by
  simp [New, h, invoke]

end Lemmas

/-! ## Claims -/

section Claims

variable {IC FC SC L G Enc WS σ : Type}

/-- C1: with `Enable = false`, `New` returns the no-op (empty) logger and a nil
error, for every format, storage kind, geo-IP provider and logger; the state is
returned unchanged, so nothing was called, constructed or allocated. -/
theorem New_disabled_is_empty (K : Consts) (X : Externals FC SC L G Enc WS σ)
    (config : Config IC FC SC) (geo : G) (logger : L) (s : State σ)
    (h : config.Enable = false) :
    New K X config geo logger s = ((some Logger.empty, none), s) := by
  simp [New, h]

theorem New_disabled_is_empty_witness :
    (sampleConfig false "telnet" "tape" 0 0).Enable = false ∧
    New sampleConsts sampleExternals (sampleConfig false "telnet" "tape" 0 0) 7 8 sampleState
      = ((some Logger.empty, none), sampleState) :=
  ⟨rfl, New_disabled_is_empty _ _ _ _ _ _ rfl⟩

/-- C2: with `Enable = true`, if the format is not one of the three constants,
or it is but the storage kind is not one of the three constants, then `New`
returns a nil logger and a non-nil error, `NewLogger` is not among the calls
made, and no wait group was allocated. -/
theorem New_config_error (K : Consts) (X : Externals FC SC L G Enc WS σ)
    (config : Config IC FC SC) (geo : G) (logger : L) (s : State σ)
    (hen : config.Enable = true)
    (hbad : ¬ K.supportsFormat config.Format ∨
      (K.supportsFormat config.Format ∧ ¬ K.supportsStorage config.Storage)) :
    ∃ e : Error, (New K X config geo logger s).1 = (none, some e) ∧
      Call.NewLogger ∉ callsSince s (New K X config geo logger s).2 ∧
      (New K X config geo logger s).2.wgs = s.wgs := by
  rw [New_enabled K X config geo logger s hen]
  rcases hbad with hf | ⟨hf, hs⟩
  · rw [NewEncoder_bad K X _ logger geo _ hf]
    refine ⟨⟨"invalid audit log encoder: " ++ config.Format⟩, by simp, ?_, by simp⟩
    simp [callsSince]
  · obtain ⟨e, he⟩ := NewEncoder_ok K X config.Format logger geo (s.record Call.NewEncoder) hf
    obtain ⟨l, hl, hmem⟩ :=
      NewEncoder_calls K X config.Format logger geo (s.record Call.NewEncoder)
    have hw := NewEncoder_wgs K X config.Format logger geo (s.record Call.NewEncoder)
    generalize NewEncoder K X config.Format logger geo (s.record Call.NewEncoder) = r₁
      at he hl hw
    have hc : (r₁.2.record Call.NewStorage).calls
        = s.calls ++ (Call.NewEncoder :: l ++ [Call.NewStorage]) := by
      simp [hl]
    refine ⟨⟨"invalid audit log storage: " ++ config.Storage⟩, ?_, ?_, ?_⟩
    · simp [he, NewStorage_bad K X config logger _ hs]
    · simp only [he, NewStorage_bad K X config logger _ hs, ne_eq, not_true_eq_false,
        if_false, reduceCtorEq, not_false_eq_true, if_true]
      rw [callsSince_append _ _ _ hc]
      intro hin
      have hin' : Call.NewLogger ∈ l := by simpa using hin
      rcases hmem _ hin' with h | h | h <;> cases h
    · simp [he, NewStorage_bad K X config logger _ hs, hw]

theorem New_config_error_witness :
    (sampleConfig true "binary" "tape" 3 4).Enable = true ∧
    (¬ sampleConsts.supportsFormat (sampleConfig true "binary" "tape" 3 4).Format ∨
      (sampleConsts.supportsFormat (sampleConfig true "binary" "tape" 3 4).Format ∧
        ¬ sampleConsts.supportsStorage (sampleConfig true "binary" "tape" 3 4).Storage)) ∧
    ∃ e : Error,
      (New sampleConsts sampleExternals (sampleConfig true "binary" "tape" 3 4) 7 8
        sampleState).1 = (none, some e) ∧
      Call.NewLogger ∉ callsSince sampleState
        (New sampleConsts sampleExternals (sampleConfig true "binary" "tape" 3 4) 7 8
          sampleState).2 ∧
      (New sampleConsts sampleExternals (sampleConfig true "binary" "tape" 3 4) 7 8
        sampleState).2.wgs = sampleState.wgs :=
  ⟨rfl, Or.inr ⟨by decide, by decide⟩,
    New_config_error _ _ _ _ _ _ rfl (Or.inr ⟨by decide, by decide⟩)⟩

/-- C3: `NewEncoder` returns a non-nil error exactly when the format is none of
`FormatNone`, `FormatAsciinema`, `FormatBinary`; whenever the error is non-nil
the encoder is nil; and on each of the three formats it returns an encoder and
a nil error.  This holds for every logger, geo-IP provider and state. -/
theorem NewEncoder_error_iff (K : Consts) (X : Externals FC SC L G Enc WS σ)
    (f : Format) (logger : L) (geo : G) (s : State σ) :
    ((NewEncoder K X f logger geo s).1.2 ≠ none ↔ ¬ K.supportsFormat f) ∧
    ((NewEncoder K X f logger geo s).1.2 ≠ none → (NewEncoder K X f logger geo s).1.1 = none) ∧
    (K.supportsFormat f → ∃ e, (NewEncoder K X f logger geo s).1 = (some e, none)) := by
  by_cases h : K.supportsFormat f
  · obtain ⟨e, he⟩ := NewEncoder_ok K X f logger geo s h
    simp [he, h]
  · simp [NewEncoder_bad K X f logger geo s h, h]

/-- C4: when the storage kind is none of `StorageNone`, `StorageFile`,
`StorageS3`, `NewStorage` returns a nil storage and a non-nil error (the one
naming the kind), and the state is returned unchanged: no backend constructor
was called, whatever the `File` and `S3` sub-configurations are. -/
theorem NewStorage_unknown_kind (K : Consts) (X : Externals FC SC L G Enc WS σ)
    (config : Config IC FC SC) (logger : L) (s : State σ)
    (h : ¬ K.supportsStorage config.Storage) :
    (NewStorage K X config logger s).1 =
      (none, some ⟨"invalid audit log storage: " ++ config.Storage⟩) ∧
    (NewStorage K X config logger s).2 = s ∧
    Call.fileNewStorage ∉ callsSince s (NewStorage K X config logger s).2 ∧
    Call.s3NewStorage ∉ callsSince s (NewStorage K X config logger s).2 := by
  rw [NewStorage_bad K X config logger s h]
  simp [callsSince_self]

theorem NewStorage_unknown_kind_witness :
    ¬ sampleConsts.supportsStorage (sampleConfig true "binary" "tape" 3 4).Storage ∧
    (NewStorage sampleConsts sampleExternals (sampleConfig true "binary" "tape" 3 4) 8
        sampleState).1 = (none, some ⟨"invalid audit log storage: tape"⟩) ∧
    (NewStorage sampleConsts sampleExternals (sampleConfig true "binary" "tape" 3 4) 8
        sampleState).2 = sampleState ∧
    Call.fileNewStorage ∉ callsSince sampleState
      (NewStorage sampleConsts sampleExternals (sampleConfig true "binary" "tape" 3 4) 8
        sampleState).2 ∧
    Call.s3NewStorage ∉ callsSince sampleState
      (NewStorage sampleConsts sampleExternals (sampleConfig true "binary" "tape" 3 4) 8
        sampleState).2 :=
  ⟨by decide, NewStorage_unknown_kind _ _ _ _ _ (by decide)⟩

/-- C5: with `Enable = true`, storage kind `StorageNone` and a supported
format, `New` returns a logger and a nil error; the logger's storage is the
value returned by the no-op storage constructor, and neither the file nor the
object-storage constructor is among the calls made, whatever the `File` and
`S3` sub-configurations are. -/
theorem New_storage_none (K : Consts) (X : Externals FC SC L G Enc WS σ)
    (config : Config IC FC SC) (geo : G) (logger : L) (s : State σ)
    (hen : config.Enable = true) (hst : config.Storage = K.StorageNone)
    (hf : K.supportsFormat config.Format) :
    ∃ l : loggerImplementation IC L G Enc WS,
      (New K X config geo logger s).1 = (some (Logger.impl l), none) ∧
      l.storage = some (X.noneStorageNewStorage
        (invoke Call.NewEncoder (NewEncoder K X config.Format logger geo) s).2.world).1 ∧
      Call.noneStorageNewStorage ∈ callsSince s (New K X config geo logger s).2 ∧
      Call.fileNewStorage ∉ callsSince s (New K X config geo logger s).2 ∧
      Call.s3NewStorage ∉ callsSince s (New K X config geo logger s).2 := by
  rw [New_enabled K X config geo logger s hen]
  obtain ⟨e, he⟩ := NewEncoder_ok K X config.Format logger geo (s.record Call.NewEncoder) hf
  obtain ⟨c, hc, hmem⟩ :=
    NewEncoder_calls K X config.Format logger geo (s.record Call.NewEncoder)
  simp only [invoke]
  generalize NewEncoder K X config.Format logger geo (s.record Call.NewEncoder) = r₁
    at he hc
  have hcalls : ∀ t : State σ, t.calls = r₁.2.calls ++
      [Call.NewStorage, Call.noneStorageNewStorage, Call.NewLogger] →
      callsSince s t = Call.NewEncoder :: c ++
        [Call.NewStorage, Call.noneStorageNewStorage, Call.NewLogger] := by
    intro t ht
    apply callsSince_append
    simp [ht, hc]
  refine ⟨{ intercept := config.Intercept, encoder := some e,
             storage := some (X.noneStorageNewStorage r₁.2.world).1, logger := logger,
             wg := r₁.2.wgs.length, geoIPLookup := geo }, ?_, rfl, ?_, ?_, ?_⟩
  · simp [he, NewStorage, hst, NewLogger, foreignCall, newWaitGroup]
  all_goals
    simp only [he, NewStorage, hst, NewLogger, foreignCall, newWaitGroup, if_true, ne_eq,
      not_true_eq_false, if_false]
    rw [hcalls _ (by simp [State.record])]
  · simp
  · intro hin
    have hin' : Call.fileNewStorage ∈ c := by simpa using hin
    rcases hmem _ hin' with h | h | h <;> cases h
  · intro hin
    have hin' : Call.s3NewStorage ∈ c := by simpa using hin
    rcases hmem _ hin' with h | h | h <;> cases h

theorem New_storage_none_witness :
    (sampleConfig true "asciinema" "none" 3 4).Enable = true ∧
    (sampleConfig true "asciinema" "none" 3 4).Storage = sampleConsts.StorageNone ∧
    sampleConsts.supportsFormat (sampleConfig true "asciinema" "none" 3 4).Format ∧
    ∃ l : loggerImplementation (List Bool) Nat Nat (List Nat) (List Nat),
      (New sampleConsts sampleExternals (sampleConfig true "asciinema" "none" 3 4) 7 8
        sampleState).1 = (some (Logger.impl l), none) ∧
      l.storage = some (sampleExternals.noneStorageNewStorage
        (invoke Call.NewEncoder (NewEncoder sampleConsts sampleExternals
          (sampleConfig true "asciinema" "none" 3 4).Format 8 7) sampleState).2.world).1 ∧
      Call.noneStorageNewStorage ∈ callsSince sampleState
        (New sampleConsts sampleExternals (sampleConfig true "asciinema" "none" 3 4) 7 8
          sampleState).2 ∧
      Call.fileNewStorage ∉ callsSince sampleState
        (New sampleConsts sampleExternals (sampleConfig true "asciinema" "none" 3 4) 7 8
          sampleState).2 ∧
      Call.s3NewStorage ∉ callsSince sampleState
        (New sampleConsts sampleExternals (sampleConfig true "asciinema" "none" 3 4) 7 8
          sampleState).2 :=
  ⟨rfl, rfl, by decide, New_storage_none _ _ _ _ _ _ rfl rfl (by decide)⟩

/-- C6: provided the three format constants are pairwise distinct,
`NewEncoder` maps `FormatNone` to the encoder returned by the none constructor,
`FormatAsciinema` to the encoder returned by the asciinema constructor applied
to the given logger and geo-IP provider, and `FormatBinary` to the encoder
returned by the binary constructor applied to the given geo-IP provider, each
with a nil error and that constructor as the only call made.  The constructor
selected depends on the format alone (not on the logger, provider, backend
implementations or state), and two different supported formats select
different constructors. -/
theorem NewEncoder_mapping (K : Consts) (X : Externals FC SC L G Enc WS σ)
    (hna : K.FormatAsciinema ≠ K.FormatNone) (hnb : K.FormatBinary ≠ K.FormatNone)
    (hab : K.FormatBinary ≠ K.FormatAsciinema) :
    (∀ (logger : L) (geo : G) (s : State σ),
      (NewEncoder K X K.FormatNone logger geo s).1 =
        (some (X.noneCodecNewEncoder s.world).1, none) ∧
      (NewEncoder K X K.FormatNone logger geo s).2.world =
        (X.noneCodecNewEncoder s.world).2 ∧
      callsSince s (NewEncoder K X K.FormatNone logger geo s).2 =
        [Call.noneCodecNewEncoder]) ∧
    (∀ (logger : L) (geo : G) (s : State σ),
      (NewEncoder K X K.FormatAsciinema logger geo s).1 =
        (some (X.asciinemaNewEncoder logger geo s.world).1, none) ∧
      (NewEncoder K X K.FormatAsciinema logger geo s).2.world =
        (X.asciinemaNewEncoder logger geo s.world).2 ∧
      callsSince s (NewEncoder K X K.FormatAsciinema logger geo s).2 =
        [Call.asciinemaNewEncoder]) ∧
    (∀ (logger : L) (geo : G) (s : State σ),
      (NewEncoder K X K.FormatBinary logger geo s).1 =
        (some (X.binaryNewEncoder geo s.world).1, none) ∧
      (NewEncoder K X K.FormatBinary logger geo s).2.world =
        (X.binaryNewEncoder geo s.world).2 ∧
      callsSince s (NewEncoder K X K.FormatBinary logger geo s).2 =
        [Call.binaryNewEncoder]) ∧
    (∀ (X' : Externals FC SC L G Enc WS σ) (f : Format) (logger logger' : L) (geo geo' : G)
        (s s' : State σ),
      callsSince s (NewEncoder K X f logger geo s).2 =
        callsSince s' (NewEncoder K X' f logger' geo' s').2) ∧
    (∀ (f f' : Format) (logger logger' : L) (geo geo' : G) (s s' : State σ),
      K.supportsFormat f → K.supportsFormat f' → f ≠ f' →
      callsSince s (NewEncoder K X f logger geo s).2 ≠
        callsSince s' (NewEncoder K X f' logger' geo' s').2) := by
  have key : ∀ (Y : Externals FC SC L G Enc WS σ) (f : Format) (logger : L) (geo : G)
      (s : State σ), callsSince s (NewEncoder K Y f logger geo s).2 =
        if f = K.FormatNone then [Call.noneCodecNewEncoder]
        else if f = K.FormatAsciinema then [Call.asciinemaNewEncoder]
        else if f = K.FormatBinary then [Call.binaryNewEncoder] else [] := by
    intro Y f logger geo s
    unfold NewEncoder
    split_ifs <;> simp [callsSince, foreignCall]
  refine ⟨?_, ?_, ?_, ?_, ?_⟩
  · intro logger geo s
    refine ⟨?_, ?_, ?_⟩
    · simp [NewEncoder, foreignCall]
    · simp [NewEncoder, foreignCall]
    · rw [key]; simp
  · intro logger geo s
    refine ⟨?_, ?_, ?_⟩
    · simp [NewEncoder, foreignCall, hna]
    · simp [NewEncoder, foreignCall, hna]
    · rw [key]; simp [hna]
  · intro logger geo s
    refine ⟨?_, ?_, ?_⟩
    · simp [NewEncoder, foreignCall, hnb, hab]
    · simp [NewEncoder, foreignCall, hnb, hab]
    · rw [key]; simp [hnb, hab]
  · intro X' f logger logger' geo geo' s s'
    rw [key, key]
  · intro f f' logger logger' geo geo' s s' hf hf' hne
    rw [key, key]
    rcases hf with h | h | h <;> rcases hf' with h' | h' | h' <;> subst h <;> subst h' <;>
      first
        | exact absurd rfl hne
        | simp [hna, hnb, hab, hna.symm, hnb.symm, hab.symm]

theorem NewEncoder_mapping_witness :
    sampleConsts.FormatAsciinema ≠ sampleConsts.FormatNone ∧
    sampleConsts.FormatBinary ≠ sampleConsts.FormatNone ∧
    sampleConsts.FormatBinary ≠ sampleConsts.FormatAsciinema ∧
    (NewEncoder sampleConsts sampleExternals sampleConsts.FormatNone 8 7 sampleState).1 =
        (some (sampleExternals.noneCodecNewEncoder sampleState.world).1, none) ∧
    (NewEncoder sampleConsts sampleExternals sampleConsts.FormatAsciinema 8 7 sampleState).1 =
        (some (sampleExternals.asciinemaNewEncoder 8 7 sampleState.world).1, none) ∧
    callsSince sampleState
        (NewEncoder sampleConsts sampleExternals sampleConsts.FormatBinary 8 7 sampleState).2 =
      [Call.binaryNewEncoder] ∧
    callsSince sampleState
        (NewEncoder sampleConsts sampleExternals "asciinema" 8 7 sampleState).2 ≠
      callsSince sampleState
        (NewEncoder sampleConsts sampleExternals "binary" 5 6 sampleState).2 :=
  ⟨by decide, by decide, by decide,
    ((NewEncoder_mapping sampleConsts sampleExternals (by decide) (by decide)
      (by decide)).1 8 7 sampleState).1,
    ((NewEncoder_mapping sampleConsts sampleExternals (by decide) (by decide)
      (by decide)).2.1 8 7 sampleState).1,
    ((NewEncoder_mapping sampleConsts sampleExternals (by decide) (by decide)
      (by decide)).2.2.1 8 7 sampleState).2.2,
    (NewEncoder_mapping sampleConsts sampleExternals (by decide) (by decide)
      (by decide)).2.2.2.2 "asciinema" "binary" 8 5 7 6 sampleState sampleState
      (by decide) (by decide) (by decide)⟩

/-- C7: provided the three storage constants are pairwise distinct,
`NewStorage` maps `StorageNone` to the storage returned by the no-op
constructor with a nil error, `StorageFile` to exactly the pair (storage,
error) returned by the file constructor applied to `config.File`, and
`StorageS3` to exactly the pair returned by the object-storage constructor
applied to `config.S3`; in each case that constructor is the only call made.
Two configurations of the same kind that agree on the sub-configuration of
that kind give the same result: the other fields have no influence. -/
theorem NewStorage_mapping (K : Consts) (X : Externals FC SC L G Enc WS σ)
    (config config' : Config IC FC SC) (logger : L) (s : State σ)
    (hnf : K.StorageFile ≠ K.StorageNone) (hns : K.StorageS3 ≠ K.StorageNone)
    (hfs : K.StorageS3 ≠ K.StorageFile) :
    (config.Storage = K.StorageNone →
      (NewStorage K X config logger s).1 = (some (X.noneStorageNewStorage s.world).1, none) ∧
      (NewStorage K X config logger s).2.world = (X.noneStorageNewStorage s.world).2 ∧
      callsSince s (NewStorage K X config logger s).2 = [Call.noneStorageNewStorage]) ∧
    (config.Storage = K.StorageFile →
      (NewStorage K X config logger s).1 = (X.fileNewStorage config.File logger s.world).1 ∧
      (NewStorage K X config logger s).2.world =
        (X.fileNewStorage config.File logger s.world).2 ∧
      callsSince s (NewStorage K X config logger s).2 = [Call.fileNewStorage]) ∧
    (config.Storage = K.StorageS3 →
      (NewStorage K X config logger s).1 = (X.s3NewStorage config.S3 logger s.world).1 ∧
      (NewStorage K X config logger s).2.world =
        (X.s3NewStorage config.S3 logger s.world).2 ∧
      callsSince s (NewStorage K X config logger s).2 = [Call.s3NewStorage]) ∧
    (config'.Storage = config.Storage →
      (config.Storage = K.StorageNone ∨
        (config.Storage = K.StorageFile ∧ config'.File = config.File) ∨
        (config.Storage = K.StorageS3 ∧ config'.S3 = config.S3)) →
      NewStorage K X config' logger s = NewStorage K X config logger s) := by
  refine ⟨?_, ?_, ?_, ?_⟩
  · intro h
    simp [NewStorage, h, foreignCall, callsSince]
  · intro h
    simp [NewStorage, h, hnf, foreignCall, callsSince]
  · intro h
    simp [NewStorage, h, hns, hfs, foreignCall, callsSince]
  · intro hk hsub
    rcases hsub with h | ⟨h, hfile⟩ | ⟨h, hs3⟩
    · simp [NewStorage, hk, h]
    · simp [NewStorage, hk, h, hnf, hfile]
    · simp [NewStorage, hk, h, hns, hfs, hs3]

theorem NewStorage_mapping_witness :
    sampleConsts.StorageFile ≠ sampleConsts.StorageNone ∧
    sampleConsts.StorageS3 ≠ sampleConsts.StorageNone ∧
    sampleConsts.StorageS3 ≠ sampleConsts.StorageFile ∧
    (NewStorage sampleConsts sampleExternals (sampleConfig true "binary" "file" 3 4) 8
        sampleState).1 = (sampleExternals.fileNewStorage 3 8 sampleState.world).1 ∧
    callsSince sampleState (NewStorage sampleConsts sampleExternals
        (sampleConfig true "binary" "file" 3 4) 8 sampleState).2 = [Call.fileNewStorage] ∧
    NewStorage sampleConsts sampleExternals (sampleConfig false "telnet" "file" 3 0) 8
        sampleState =
      NewStorage sampleConsts sampleExternals (sampleConfig true "binary" "file" 3 4) 8
        sampleState :=
  ⟨by decide, by decide, by decide,
    ((NewStorage_mapping sampleConsts sampleExternals (sampleConfig true "binary" "file" 3 4)
      (sampleConfig false "telnet" "file" 3 0) 8 sampleState (by decide) (by decide)
      (by decide)).2.1 rfl).1,
    ((NewStorage_mapping sampleConsts sampleExternals (sampleConfig true "binary" "file" 3 4)
      (sampleConfig false "telnet" "file" 3 0) 8 sampleState (by decide) (by decide)
      (by decide)).2.1 rfl).2.2,
    (NewStorage_mapping sampleConsts sampleExternals (sampleConfig true "binary" "file" 3 4)
      (sampleConfig false "telnet" "file" 3 0) 8 sampleState (by decide) (by decide)
      (by decide)).2.2.2 rfl (Or.inr (Or.inl ⟨rfl, rfl⟩))⟩

/-- C8: `NewLogger` never fails.  For all arguments it returns a nil error and
a `loggerImplementation` whose `intercept`, `encoder`, `storage`, `logger` and
`geoIPLookup` fields are the arguments, unmodified, and whose `wg` points to a
freshly allocated wait group: the pointer was not allocated before, the wait
group it points to has its zero value, and the wait groups allocated before
are untouched.  Nothing is called and the outside world is left alone. -/
theorem NewLogger_never_fails (intercept : IC) (encoder : Option Enc) (storage : Option WS)
    (logger : L) (geo : G) (s : State σ) :
    ∃ l : loggerImplementation IC L G Enc WS,
      (NewLogger intercept encoder storage logger geo s).1 = (some (Logger.impl l), none) ∧
      l.intercept = intercept ∧ l.encoder = encoder ∧ l.storage = storage ∧
      l.logger = logger ∧ l.geoIPLookup = geo ∧
      ¬ l.wg < s.wgs.length ∧
      (NewLogger intercept encoder storage logger geo s).2.wgs[l.wg]? =
        some { counter := 0 } ∧
      (NewLogger intercept encoder storage logger geo s).2.wgs.length = s.wgs.length + 1 ∧
      (∀ i, i < s.wgs.length →
        (NewLogger intercept encoder storage logger geo s).2.wgs[i]? = s.wgs[i]?) ∧
      (NewLogger intercept encoder storage logger geo s).2.world = s.world ∧
      (NewLogger intercept encoder storage logger geo s).2.calls = s.calls := by
  refine ⟨{ intercept := intercept, encoder := encoder, storage := storage,
            logger := logger, wg := s.wgs.length, geoIPLookup := geo },
    rfl, rfl, rfl, rfl, rfl, rfl, ?_, ?_, ?_, ?_, rfl, rfl⟩
  · simp
  · simp [NewLogger, newWaitGroup]
  · simp [NewLogger, newWaitGroup]
  · intro i hi
    simp [NewLogger, newWaitGroup, List.getElem?_append_left hi]

/-- C9: with `Enable = true`, `New` returns a nil error if and only if both the
call to `NewEncoder(config.Format, logger, geo)` and the subsequent call to
`NewStorage(config, logger)` return a nil error; in that case the result of
`New` is the result of the call `NewLogger(config.Intercept, e, st, logger,
geo)` on exactly the encoder `e` and storage `st` those calls returned, and the
logger's intercept configuration is `config.Intercept`. -/
theorem New_refines_NewLogger (K : Consts) (X : Externals FC SC L G Enc WS σ)
    (config : Config IC FC SC) (geo : G) (logger : L) (s : State σ)
    (hen : config.Enable = true) :
    ((New K X config geo logger s).1.2 = none ↔
      (invoke Call.NewEncoder (NewEncoder K X config.Format logger geo) s).1.2 = none ∧
      (invoke Call.NewStorage (NewStorage K X config logger)
        (invoke Call.NewEncoder (NewEncoder K X config.Format logger geo) s).2).1.2 = none) ∧
    ((New K X config geo logger s).1.2 = none →
      New K X config geo logger s =
        invoke Call.NewLogger
          (NewLogger config.Intercept
            (invoke Call.NewEncoder (NewEncoder K X config.Format logger geo) s).1.1
            (invoke Call.NewStorage (NewStorage K X config logger)
              (invoke Call.NewEncoder (NewEncoder K X config.Format logger geo) s).2).1.1
            logger geo)
          (invoke Call.NewStorage (NewStorage K X config logger)
            (invoke Call.NewEncoder (NewEncoder K X config.Format logger geo) s).2).2 ∧
      ∃ l : loggerImplementation IC L G Enc WS,
        (New K X config geo logger s).1.1 = some (Logger.impl l) ∧
        l.intercept = config.Intercept ∧
        l.encoder =
          (invoke Call.NewEncoder (NewEncoder K X config.Format logger geo) s).1.1 ∧
        l.storage =
          (invoke Call.NewStorage (NewStorage K X config logger)
            (invoke Call.NewEncoder (NewEncoder K X config.Format logger geo) s).2).1.1) := by
  rw [New_enabled K X config geo logger s hen]
  simp only [invoke]
  generalize NewEncoder K X config.Format logger geo (s.record Call.NewEncoder) = r₁
  generalize NewStorage K X config logger (r₁.2.record Call.NewStorage) = r₂
  by_cases h₁ : r₁.1.2 = none
  · by_cases h₂ : r₂.1.2 = none
    · rw [if_neg (not_not.mpr h₁), if_neg (not_not.mpr h₂)]
      refine ⟨⟨fun _ => ⟨h₁, h₂⟩, fun _ => rfl⟩, fun _ => ⟨rfl, ?_⟩⟩
      exact ⟨_, rfl, rfl, rfl, rfl⟩
    · simp [h₁, h₂]
  · simp [h₁]

theorem New_refines_NewLogger_witness :
    (sampleConfig true "binary" "s3" 3 4).Enable = true ∧
    (New sampleConsts sampleExternals (sampleConfig true "binary" "s3" 3 4) 7 8
        sampleState).1.2 = none ∧
    New sampleConsts sampleExternals (sampleConfig true "binary" "s3" 3 4) 7 8 sampleState =
      invoke Call.NewLogger
        (NewLogger (sampleConfig true "binary" "s3" 3 4).Intercept
          (invoke Call.NewEncoder (NewEncoder sampleConsts sampleExternals
            (sampleConfig true "binary" "s3" 3 4).Format 8 7) sampleState).1.1
          (invoke Call.NewStorage (NewStorage sampleConsts sampleExternals
              (sampleConfig true "binary" "s3" 3 4) 8)
            (invoke Call.NewEncoder (NewEncoder sampleConsts sampleExternals
              (sampleConfig true "binary" "s3" 3 4).Format 8 7) sampleState).2).1.1
          8 7)
        (invoke Call.NewStorage (NewStorage sampleConsts sampleExternals
            (sampleConfig true "binary" "s3" 3 4) 8)
          (invoke Call.NewEncoder (NewEncoder sampleConsts sampleExternals
            (sampleConfig true "binary" "s3" 3 4).Format 8 7) sampleState).2).2 :=
  ⟨rfl, by decide,
    ((New_refines_NewLogger sampleConsts sampleExternals (sampleConfig true "binary" "s3" 3 4)
      7 8 sampleState rfl).2 (by decide)).1⟩

/-- C10: with `Enable = true` and a format that is none of the three constants,
the result of `New` is a nil logger with exactly the error `NewEncoder`
returns, which is the one naming the invalid format; the only call made is the
one to `NewEncoder`, so `NewStorage` and the backend constructors are not
called and the outside world is left alone, whatever the storage kind and its
sub-configurations are. -/
theorem New_encoder_error_first (K : Consts) (X : Externals FC SC L G Enc WS σ)
    (config : Config IC FC SC) (geo : G) (logger : L) (s : State σ)
    (hen : config.Enable = true) (hf : ¬ K.supportsFormat config.Format) :
    (New K X config geo logger s).1 =
      (none, (NewEncoder K X config.Format logger geo s).1.2) ∧
    (NewEncoder K X config.Format logger geo s).1.2 =
      some ⟨"invalid audit log encoder: " ++ config.Format⟩ ∧
    callsSince s (New K X config geo logger s).2 = [Call.NewEncoder] ∧
    Call.NewStorage ∉ callsSince s (New K X config geo logger s).2 ∧
    Call.fileNewStorage ∉ callsSince s (New K X config geo logger s).2 ∧
    Call.s3NewStorage ∉ callsSince s (New K X config geo logger s).2 ∧
    (New K X config geo logger s).2.world = s.world ∧
    (New K X config geo logger s).2.wgs = s.wgs := by
  rw [New_enabled K X config geo logger s hen]
  rw [NewEncoder_bad K X _ logger geo _ hf, NewEncoder_bad K X _ logger geo _ hf]
  have hc : callsSince s (s.record Call.NewEncoder) = [Call.NewEncoder] :=
    callsSince_append _ _ _ rfl
  simp [hc]

theorem New_encoder_error_first_witness :
    (sampleConfig true "telnet" "file" 0 4).Enable = true ∧
    ¬ sampleConsts.supportsFormat (sampleConfig true "telnet" "file" 0 4).Format ∧
    (New sampleConsts sampleExternals (sampleConfig true "telnet" "file" 0 4) 7 8
        sampleState).1 =
      (none, (NewEncoder sampleConsts sampleExternals
        (sampleConfig true "telnet" "file" 0 4).Format 8 7 sampleState).1.2) ∧
    (NewEncoder sampleConsts sampleExternals
        (sampleConfig true "telnet" "file" 0 4).Format 8 7 sampleState).1.2 =
      some ⟨"invalid audit log encoder: telnet"⟩ ∧
    callsSince sampleState (New sampleConsts sampleExternals
        (sampleConfig true "telnet" "file" 0 4) 7 8 sampleState).2 = [Call.NewEncoder] :=
  ⟨rfl, by decide,
    (New_encoder_error_first sampleConsts sampleExternals
      (sampleConfig true "telnet" "file" 0 4) 7 8 sampleState rfl (by decide)).1,
    (New_encoder_error_first sampleConsts sampleExternals
      (sampleConfig true "telnet" "file" 0 4) 7 8 sampleState rfl (by decide)).2.1,
    (New_encoder_error_first sampleConsts sampleExternals
      (sampleConfig true "telnet" "file" 0 4) 7 8 sampleState rfl (by decide)).2.2.1⟩

end Claims

end Auditlog
